import Mathlib

/-!
# Verification of `@foxglove/velodyne-cloud` (packet decoding and point-cloud packing)

Shallow embedding of the two source files `src/RawPacket.ts` and
`src/PointCloud.ts` (the latter also carries `Calibration.ts`).

Modelling conventions:

* A JavaScript `Uint8Array` / `ArrayBuffer` is a `List ℕ` of bytes; reads use
  `List.getD` and the `DataView` accessors are modelled byte-by-byte in
  little-endian order, exactly as `getUint32(off, true)` etc. behave.
* A bounds-checked `DataView` write (`setFloat32`/`setUint16`/`setUint32`)
  either throws a `RangeError` (when `offset + size > byteLength`) or
  replaces the addressed bytes; this is `writeBytes` below, returning
  `Except String`.  A method that throws mid-way is modelled by the `Except`
  bind chain in source order: an error from write `k` means writes `k+1…`
  and the subsequent field updates never happen.
* `setFloat32`/`getFloat32` on a float32-representable number store and
  reload its IEEE-754 single-precision bit pattern unchanged, so the five
  float fields of a point are modelled by their 32-bit patterns
  (`ℕ` values below `2^32`); the byte image written is the little-endian
  encoding of that pattern, exactly as `DataView` lays it out.
* JavaScript `number` arithmetic on the timestamp and timing paths is
  modelled over `ℚ`; all constants involved are decimal literals, and the
  properties at issue (unit scaling, closed-form timing entries) are
  independent of float64 rounding.
-/

namespace VelodyneCloud

/-- Little-endian byte image of a 16-bit write: `DataView.setUint16(_, v, true)`
first truncates `v` to 16 bits and stores low byte first. -/
def u16LE (v : ℕ) : List ℕ := [v % 256, v / 256 % 256]

/-- Little-endian byte image of a 32-bit write
(`DataView.setUint32(_, v, true)`, and `setFloat32` applied to a bit
pattern): low byte first. -/
def u32LE (v : ℕ) : List ℕ :=
  [v % 256, v / 256 % 256, v / 65536 % 256, v / 16777216 % 256]

/-- `DataView.getUint16(off, true)` over a byte list. -/
def readU16LE (buf : List ℕ) (off : ℕ) : ℕ :=
  buf.getD off 0 + 256 * buf.getD (off + 1) 0

/-- `DataView.getUint32(off, true)` over a byte list. -/
def readU32LE (buf : List ℕ) (off : ℕ) : ℕ :=
  buf.getD off 0 + 256 * buf.getD (off + 1) 0 + 65536 * buf.getD (off + 2) 0 +
    16777216 * buf.getD (off + 3) 0

/-- Replace the bytes of `buf` at positions `[off, off + bs.length)` by `bs`
(the in-bounds effect of a `DataView` write). -/
def writeList (buf : List ℕ) (off : ℕ) (bs : List ℕ) : List ℕ :=
  buf.take off ++ bs ++ buf.drop (off + bs.length)

/-- A bounds-checked `DataView` write: throws a `RangeError` when the
addressed range does not fit in the view, otherwise replaces the bytes. -/
def writeBytes (buf : List ℕ) (off : ℕ) (bs : List ℕ) : Except String (List ℕ) :=
  if off + bs.length ≤ buf.length then .ok (writeList buf off bs)
  else .error "RangeError: Offset is outside the bounds of the DataView"

theorem writeBytes_ok (buf : List ℕ) (off : ℕ) (bs : List ℕ)
    (h : off + bs.length ≤ buf.length) :
    writeBytes buf off bs = .ok (writeList buf off bs) := by
  simp [writeBytes, h]

theorem writeBytes_err (buf : List ℕ) (off : ℕ) (bs : List ℕ)
    (h : buf.length < off + bs.length) :
    writeBytes buf off bs =
      .error "RangeError: Offset is outside the bounds of the DataView" := by
  simp [writeBytes]
  omega

theorem length_writeList (buf : List ℕ) (off : ℕ) (bs : List ℕ)
    (h : off + bs.length ≤ buf.length) :
    (writeList buf off bs).length = buf.length := by
  simp [writeList]
  omega

theorem getD_writeList_lt (buf : List ℕ) (off p : ℕ) (bs : List ℕ) (d : ℕ)
    (hp : p < off) (hoff : off ≤ buf.length) :
    (writeList buf off bs).getD p d = buf.getD p d := by
  have hlt : p < (buf.take off).length := by simp; omega
  simp only [writeList, List.getD_eq_getElem?_getD, List.append_assoc]
  rw [List.getElem?_append_left hlt, List.getElem?_take]
  simp [hp]

theorem getD_writeList_at (buf : List ℕ) (off k : ℕ) (bs : List ℕ) (d : ℕ)
    (hk : k < bs.length) (hoff : off ≤ buf.length) :
    (writeList buf off bs).getD (off + k) d = bs.getD k d := by
  have hta : (buf.take off).length = off := by simp; omega
  simp only [writeList, List.getD_eq_getElem?_getD, List.append_assoc]
  rw [List.getElem?_append_right (by omega), hta]
  have h2 : off + k - off = k := by omega
  rw [h2, List.getElem?_append_left hk]

theorem take_writeList (buf : List ℕ) (off p : ℕ) (bs : List ℕ)
    (hp : p ≤ off) (hoff : off ≤ buf.length) :
    (writeList buf off bs).take p = buf.take p := by
  have hta : (buf.take off).length = off := by simp; omega
  simp only [writeList, List.append_assoc]
  rw [List.take_append_of_le_length (by omega), List.take_take,
    Nat.min_eq_left hp]

/-- Two consecutive in-bounds writes at contiguous offsets are one write of
the concatenated bytes. -/
theorem writeList_append (buf : List ℕ) (off : ℕ) (a b : List ℕ)
    (hoff : off ≤ buf.length) :
    writeList (writeList buf off a) (off + a.length) b =
      writeList buf off (a ++ b) := by
  have hta : (buf.take off ++ a).length = off + a.length := by simp; omega
  unfold writeList
  rw [List.take_left' hta]
  have hidx : off + a.length + b.length = (buf.take off ++ a).length + b.length := by
    rw [hta]
  rw [hidx, List.drop_append, List.drop_drop]
  simp [List.append_assoc]
  congr 1
  omega

/-- Entry `x` of `(List.range n).map f` (used for the loop-built tables). -/
theorem getD_map_range {α : Type} (f : ℕ → α) (n x : ℕ) (d : α) (hx : x < n) :
    ((List.range n).map f).getD x d = f x := by
  rw [List.getD_eq_getElem?_getD, List.getElem?_map, List.getElem?_range hx]
  rfl

/-! ## `src/RawPacket.ts` -/

def RAW_SCAN_SIZE : ℕ := 3
def SCANS_PER_BLOCK : ℕ := 32
def BLOCK_DATA_SIZE : ℕ := SCANS_PER_BLOCK * RAW_SCAN_SIZE
def BLOCK_SIZE : ℕ := BLOCK_DATA_SIZE + 4
def BLOCKS_PER_PACKET : ℕ := 12
def MAX_POINTS_PER_PACKET : ℕ := BLOCKS_PER_PACKET * SCANS_PER_BLOCK

/-- Modelled from the spec: `VelodyneTypes.ts` (the `Model` enumeration) is
not under `src/`; the spec describes a closed enumeration of hardware models
(16-, 32-, 64- and 128-channel variants), which is what `RawPacket.InferModel`
and `Calibration.BuildTimingsFor` match on. -/
inductive Model where
  | HDL32E
  | HDL64E
  | HDL64E_S21
  | HDL64E_S3
  | VLP16
  | VLP16HiRes
  | VLP32C
  | VLS128
deriving DecidableEq

namespace FactoryId

/-- Modelled from the spec: `VelodyneTypes.ts` (the `FactoryId` enumeration)
is not under `src/`; these are the documented Velodyne factory-id trailer
bytes that `RawPacket.InferModel` switches on. -/
def HDL32E : ℕ := 0x21

def VLP16 : ℕ := 0x22

def VLP32AB : ℕ := 0x23

def VLP16HiRes : ℕ := 0x24

def VLP32C : ℕ := 0x28

def Velarray : ℕ := 0x31

def VLS128Old : ℕ := 0x63

def HDL64 : ℕ := 0xa0

def VLS128 : ℕ := 0xa1

end FactoryId

/-- The observable state built by the `RawPacket` constructor.  The optional
decoded `returnMode` / `factoryId` enum fields are not modelled (no claim
concerns them); the raw trailer bytes `factoryField1` / `factoryField2` are. -/
structure RawPacket where
  data : List ℕ
  blocks : List (List ℕ)
  gpsTimestamp : ℕ
  factoryField1 : ℕ
  factoryField2 : ℕ

/-- The `RawPacket` constructor: throws when `data.length !== 1206`,
otherwise slices the twelve 100-byte blocks (zero-copy views, modelled by
their byte contents) and reads the trailer. -/
def RawPacket.construct (data : List ℕ) : Except String RawPacket :=
  if data.length ≠ 1206 then
    .error ("data has invalid length " ++ toString data.length ++ ", expected 1206")
  else
    .ok { data := data
          blocks :=
            (List.range BLOCKS_PER_PACKET).map fun i =>
              (data.drop (BLOCK_SIZE * i)).take BLOCK_SIZE
          gpsTimestamp := readU32LE data 1200
          factoryField1 := data.getD 1204 0
          factoryField2 := data.getD 1205 0 }

/-- `RawPacket.GpsTimestampToTimestamp` with a caller-supplied top-of-hour
date.  The `Date` argument is modelled by its epoch value in milliseconds
(what the source's `+topOfHour` coercion produces); the wall-clock default
branch is outside this model.  Note the source divides by `1e-6`. -/
def RawPacket.GpsTimestampToTimestamp (gpsTimestamp : ℚ) (topOfHourMs : ℚ) : ℚ :=
  topOfHourMs / 1000 + gpsTimestamp / (1e-6 : ℚ)

/-- The intended conversion stated by the claim and by the source's own doc
comment: epoch seconds of the top of the hour plus the microsecond count
scaled by `1e-6`. -/
def gpsTimestampToTimestampIntended (gpsTimestamp : ℚ) (topOfHourMs : ℚ) : ℚ :=
  topOfHourMs / 1000 + gpsTimestamp * (1e-6 : ℚ)

/-- `RawPacket.InferModel`: a switch on the factory-id byte at offset 1205.
Reading past the end of the buffer yields `undefined` in the source and hits
the `default` branch; the out-of-range default `256` plays that role here
(it matches no known code). -/
def RawPacket.InferModel (packet : List ℕ) : Option Model :=
  let factoryId := packet.getD 1205 256
  if factoryId = FactoryId.HDL32E then some Model.HDL32E
  else if factoryId = FactoryId.VLP16 then some Model.VLP16
  else if factoryId = FactoryId.VLP32AB then none
  else if factoryId = FactoryId.VLP16HiRes then some Model.VLP16HiRes
  else if factoryId = FactoryId.VLP32C then some Model.VLP32C
  else if factoryId = FactoryId.Velarray then none
  else if factoryId = FactoryId.HDL64 then some Model.HDL64E
  else if factoryId = FactoryId.VLS128Old then some Model.VLS128
  else if factoryId = FactoryId.VLS128 then some Model.VLS128
  else none

/-! ## `src/PointCloud.ts` -/

namespace PointFieldDataType

def INT8 : ℕ := 1

def UINT8 : ℕ := 2

def INT16 : ℕ := 3

def UINT16 : ℕ := 4

def INT32 : ℕ := 5

def UINT32 : ℕ := 6

def FLOAT32 : ℕ := 7

def FLOAT64 : ℕ := 8

end PointFieldDataType

structure PointField where
  name : String
  offset : ℕ
  datatype : ℕ
  count : ℕ
deriving DecidableEq

/-- A decoded point.  The five float32 fields are modelled by their IEEE-754
single-precision bit patterns (see the file header). -/
structure Point where
  x : ℕ
  y : ℕ
  z : ℕ
  distance : ℕ
  intensity : ℕ
  ring : ℕ
  azimuth : ℕ
  deltaNs : ℕ
deriving DecidableEq

def POINT_STEP : ℕ := 28

/-- The `PointCloud` state.  `buffer` is the backing `ArrayBuffer` allocated
at construction (the `#view` `DataView` spans all of it and is never
re-created); `dataOff`/`dataLen` are `this.data.byteOffset` and
`this.data.byteLength`, the window exposed as `this.data` (changed only by
`trim`).  `maxPoints` is the construction argument, kept for bookkeeping:
`buffer.length = maxPoints * POINT_STEP`. -/
structure PointCloud where
  stamp : ℚ
  fields : List PointField
  height : ℕ
  width : ℕ
  is_bigendian : Bool
  point_step : ℕ
  row_step : ℕ
  buffer : List ℕ
  dataOff : ℕ
  dataLen : ℕ
  maxPoints : ℕ

/-- The `PointCloud` constructor. -/
def PointCloud.construct (stamp : ℚ) (maxPoints : ℕ) : PointCloud :=
  { stamp := stamp
    fields := [
      ⟨"x", 0, PointFieldDataType.FLOAT32, 1⟩,
      ⟨"y", 4, PointFieldDataType.FLOAT32, 1⟩,
      ⟨"z", 8, PointFieldDataType.FLOAT32, 1⟩,
      ⟨"distance", 12, PointFieldDataType.FLOAT32, 1⟩,
      ⟨"intensity", 16, PointFieldDataType.FLOAT32, 1⟩,
      ⟨"ring", 20, PointFieldDataType.UINT16, 1⟩,
      ⟨"azimuth", 22, PointFieldDataType.UINT16, 1⟩,
      ⟨"delta_ns", 24, PointFieldDataType.UINT32, 1⟩]
    height := 1
    width := 0
    is_bigendian := false
    point_step := POINT_STEP
    row_step := 0
    buffer := List.replicate (maxPoints * POINT_STEP) 0
    dataOff := 0
    dataLen := maxPoints * POINT_STEP
    maxPoints := maxPoints }

/-- The byte contents of `this.data` (the exposed window of the backing
buffer). -/
def PointCloud.dataBytes (c : PointCloud) : List ℕ :=
  (c.buffer.drop c.dataOff).take c.dataLen

/-- `PointCloud.addPoint`, write for write in source order.  Each
`this.#view.set…` is a bounds-checked `DataView` write; the first one that
is out of range throws, so the binds after it (and the `width`/`row_step`
updates, which come last in the source) never happen. -/
def PointCloud.addPoint (c : PointCloud)
    (x y z distance intensity ring azimuth deltaNs : ℕ) :
    Except String PointCloud := do
  let offset := c.width * POINT_STEP
  let b0 ← writeBytes c.buffer (offset + 0) (u32LE x)
  let b1 ← writeBytes b0 (offset + 4) (u32LE y)
  let b2 ← writeBytes b1 (offset + 8) (u32LE z)
  let b3 ← writeBytes b2 (offset + 12) (u32LE distance)
  let b4 ← writeBytes b3 (offset + 16) (u32LE intensity)
  let b5 ← writeBytes b4 (offset + 20) (u16LE ring)
  let b6 ← writeBytes b5 (offset + 22) (u16LE azimuth)
  let b7 ← writeBytes b6 (offset + 24) (u32LE deltaNs)
  return { c with
            buffer := b7
            width := c.width + 1
            row_step := (c.width + 1) * POINT_STEP }

/-- `PointCloud.point`: eight bounds-checked `DataView` reads.  All eight
succeed exactly when `offset + POINT_STEP` fits (the furthest read is the
`deltaNs` one at `offset + 24 … offset + 27`), so the record is built under
one combined check; a failing read throws the same `RangeError`. -/
def PointCloud.point (c : PointCloud) (index : ℕ) : Except String Point :=
  let offset := index * POINT_STEP
  if offset + POINT_STEP ≤ c.buffer.length then
    .ok { x := readU32LE c.buffer (offset + 0)
          y := readU32LE c.buffer (offset + 4)
          z := readU32LE c.buffer (offset + 8)
          distance := readU32LE c.buffer (offset + 12)
          intensity := readU32LE c.buffer (offset + 16)
          ring := readU16LE c.buffer (offset + 20)
          azimuth := readU16LE c.buffer (offset + 22)
          deltaNs := readU32LE c.buffer (offset + 24) }
  else .error "RangeError: Offset is outside the bounds of the DataView"

/-- `PointCloud.trim`: re-points `this.data` at the same backing buffer and
byte offset with byte length `this.row_step`.  No bytes are copied. -/
def PointCloud.trim (c : PointCloud) : PointCloud :=
  { c with dataLen := c.row_step }

/-- The 28-byte record image `addPoint` deposits, in field order. -/
def pointRecord (x y z distance intensity ring azimuth deltaNs : ℕ) : List ℕ :=
  u32LE x ++ u32LE y ++ u32LE z ++ u32LE distance ++ u32LE intensity ++
    u16LE ring ++ u16LE azimuth ++ u32LE deltaNs

theorem length_pointRecord (x y z distance intensity ring azimuth deltaNs : ℕ) :
    (pointRecord x y z distance intensity ring azimuth deltaNs).length = 28 := by
  simp [pointRecord, u32LE, u16LE]

/-- The state a successful `addPoint` produces. -/
def addPointResult (c : PointCloud)
    (x y z distance intensity ring azimuth deltaNs : ℕ) : PointCloud :=
  { c with
      buffer := writeList c.buffer (c.width * POINT_STEP)
        (pointRecord x y z distance intensity ring azimuth deltaNs)
      width := c.width + 1
      row_step := (c.width + 1) * POINT_STEP }

theorem writeList_merge (buf : List ℕ) (off n : ℕ) (a b : List ℕ)
    (ha : a.length = n) (hoff : off ≤ buf.length) :
    writeList (writeList buf off a) (off + n) b = writeList buf off (a ++ b) := by
  rw [← ha]
  exact writeList_append buf off a b hoff

theorem ok_bind {α β : Type} (a : α) (f : α → Except String β) :
    (Except.ok a : Except String α) >>= f = f a := rfl

theorem pure_ok {α : Type} (a : α) :
    (pure a : Except String α) = Except.ok a := rfl

theorem addPoint_eq_ok (c : PointCloud)
    (x y z distance intensity ring azimuth deltaNs : ℕ)
    (h : c.width * POINT_STEP + POINT_STEP ≤ c.buffer.length) :
    c.addPoint x y z distance intensity ring azimuth deltaNs =
      .ok (addPointResult c x y z distance intensity ring azimuth deltaNs) := by
  have hPS : POINT_STEP = 28 := rfl
  rw [hPS] at h
  set off := c.width * POINT_STEP with hoffdef
  have hoffeq : c.width * POINT_STEP = c.width * 28 := by rw [hPS]
  have hoffle : off ≤ c.buffer.length := by omega
  have e0 : writeBytes c.buffer (off + 0) (u32LE x) =
      .ok (writeList c.buffer off (u32LE x)) := by
    rw [Nat.add_zero]
    exact writeBytes_ok _ _ _ (by simp [u32LE]; omega)
  have e1 : writeBytes (writeList c.buffer off (u32LE x)) (off + 4) (u32LE y) =
      .ok (writeList c.buffer off (u32LE x ++ u32LE y)) := by
    rw [writeBytes_ok _ _ _
      (by rw [length_writeList _ _ _ (by simp [u32LE]; omega)]; simp [u32LE]; omega)]
    rw [writeList_merge c.buffer off 4 _ _ (by simp [u32LE]) hoffle]
  have e2 : writeBytes (writeList c.buffer off (u32LE x ++ u32LE y)) (off + 8)
        (u32LE z) =
      .ok (writeList c.buffer off (u32LE x ++ u32LE y ++ u32LE z)) := by
    rw [writeBytes_ok _ _ _
      (by rw [length_writeList _ _ _ (by simp [u32LE]; omega)]; simp [u32LE]; omega)]
    rw [writeList_merge c.buffer off 8 _ _ (by simp [u32LE]) hoffle, List.append_assoc]
  have e3 : writeBytes (writeList c.buffer off (u32LE x ++ u32LE y ++ u32LE z))
        (off + 12) (u32LE distance) =
      .ok (writeList c.buffer off (u32LE x ++ u32LE y ++ u32LE z ++ u32LE distance)) := by
    rw [writeBytes_ok _ _ _
      (by rw [length_writeList _ _ _ (by simp [u32LE]; omega)]; simp [u32LE]; omega)]
    rw [writeList_merge c.buffer off 12 _ _ (by simp [u32LE]) hoffle]
  have e4 : writeBytes
        (writeList c.buffer off (u32LE x ++ u32LE y ++ u32LE z ++ u32LE distance))
        (off + 16) (u32LE intensity) =
      .ok (writeList c.buffer off
        (u32LE x ++ u32LE y ++ u32LE z ++ u32LE distance ++ u32LE intensity)) := by
    rw [writeBytes_ok _ _ _
      (by rw [length_writeList _ _ _ (by simp [u32LE]; omega)]; simp [u32LE]; omega)]
    rw [writeList_merge c.buffer off 16 _ _ (by simp [u32LE]) hoffle]
  have e5 : writeBytes
        (writeList c.buffer off
          (u32LE x ++ u32LE y ++ u32LE z ++ u32LE distance ++ u32LE intensity))
        (off + 20) (u16LE ring) =
      .ok (writeList c.buffer off
        (u32LE x ++ u32LE y ++ u32LE z ++ u32LE distance ++ u32LE intensity ++
          u16LE ring)) := by
    rw [writeBytes_ok _ _ _
      (by rw [length_writeList _ _ _ (by simp [u32LE]; omega)]; simp [u32LE, u16LE]; omega)]
    rw [writeList_merge c.buffer off 20 _ _ (by simp [u32LE]) hoffle]
  have e6 : writeBytes
        (writeList c.buffer off
          (u32LE x ++ u32LE y ++ u32LE z ++ u32LE distance ++ u32LE intensity ++
            u16LE ring))
        (off + 22) (u16LE azimuth) =
      .ok (writeList c.buffer off
        (u32LE x ++ u32LE y ++ u32LE z ++ u32LE distance ++ u32LE intensity ++
          u16LE ring ++ u16LE azimuth)) := by
    rw [writeBytes_ok _ _ _
      (by rw [length_writeList _ _ _ (by simp [u32LE, u16LE]; omega)]
          simp [u32LE, u16LE]; omega)]
    rw [writeList_merge c.buffer off 22 _ _ (by simp [u32LE, u16LE]) hoffle]
  have e7 : writeBytes
        (writeList c.buffer off
          (u32LE x ++ u32LE y ++ u32LE z ++ u32LE distance ++ u32LE intensity ++
            u16LE ring ++ u16LE azimuth))
        (off + 24) (u32LE deltaNs) =
      .ok (writeList c.buffer off
        (u32LE x ++ u32LE y ++ u32LE z ++ u32LE distance ++ u32LE intensity ++
          u16LE ring ++ u16LE azimuth ++ u32LE deltaNs)) := by
    rw [writeBytes_ok _ _ _
      (by rw [length_writeList _ _ _ (by simp [u32LE, u16LE]; omega)]
          simp [u32LE, u16LE]; omega)]
    rw [writeList_merge c.buffer off 24 _ _ (by simp [u32LE, u16LE]) hoffle]
  simp only [PointCloud.addPoint, ← hoffdef, e0, e1, e2, e3, e4, e5, e6, e7,
    ok_bind, pure_ok, addPointResult, pointRecord]

theorem readU32LE_writeList (buf : List ℕ) (off k : ℕ) (bs : List ℕ)
    (hk : k + 4 ≤ bs.length) (hoff : off ≤ buf.length) :
    readU32LE (writeList buf off bs) (off + k) = readU32LE bs k := by
  unfold readU32LE
  rw [getD_writeList_at buf off k bs 0 (by omega) hoff,
    show off + k + 1 = off + (k + 1) from by omega,
    getD_writeList_at buf off (k + 1) bs 0 (by omega) hoff,
    show off + k + 2 = off + (k + 2) from by omega,
    getD_writeList_at buf off (k + 2) bs 0 (by omega) hoff,
    show off + k + 3 = off + (k + 3) from by omega,
    getD_writeList_at buf off (k + 3) bs 0 (by omega) hoff]

theorem readU16LE_writeList (buf : List ℕ) (off k : ℕ) (bs : List ℕ)
    (hk : k + 2 ≤ bs.length) (hoff : off ≤ buf.length) :
    readU16LE (writeList buf off bs) (off + k) = readU16LE bs k := by
  unfold readU16LE
  rw [getD_writeList_at buf off k bs 0 (by omega) hoff,
    show off + k + 1 = off + (k + 1) from by omega,
    getD_writeList_at buf off (k + 1) bs 0 (by omega) hoff]

/-! ## `Calibration.ts` (second source document carried in `src/PointCloud.ts`) -/

def ROTATION_MAX_UNITS : ℕ := 36000

def VLP16_DSR_TOFFSET : ℚ := 2.304

def VLP16_FIRING_TOFFSET : ℚ := 55.296

def HDL32E_DSR_TOFFSET : ℚ := 1.152

def HDL32E_FIRING_TOFFSET : ℚ := 46.08

def VLS128_DSR_TOFFSET : ℚ := 2.665

def VLS128_FIRING_TOFFSET : ℚ := 53.5

noncomputable def deg2rad (degrees : ℝ) : ℝ := degrees * (Real.pi / 180)

/-- `ROTATION_RESOLUTION = 0.01` [deg], used in the real-valued rotation
table. -/
noncomputable def ROTATION_RESOLUTION : ℝ := 0.01

def block1 (x _y : ℕ) : ℚ := x

def block16 (x y : ℕ) : ℚ := x * 2 + (y : ℚ) / 16

def point1 (_x y : ℕ) : ℚ := y

def point2 (_x y : ℕ) : ℚ := (y : ℚ) / 2

def point16 (_x y : ℕ) : ℚ := ((y % 16 : ℕ) : ℚ)

/-- The `Calibration` lookup tables built by the constructor.  The
per-channel `laserCorrections` and `distanceResolution` come from the
externally supplied calibration description (out of scope per the spec) and
are not modelled; no claim concerns them. -/
structure Calibration where
  model : Model
  timingOffsets : List (List ℚ)
  cosRotTable : List ℝ
  sinRotTable : List ℝ
  vls128LaserAzimuthCache : List ℚ

/-- `Calibration.BuildTimings`: the `Array(rows).fill(0).map((_, x) => …)`
double map building the timing table, with the microsecond constants scaled
by `1e-6`. -/
def Calibration.BuildTimings (rows cols : ℕ)
    (fullFiringUs singleFiringUs offsetUs : ℚ)
    (block point : ℕ → ℕ → ℚ) : List (List ℚ) :=
  let fullFiring := fullFiringUs * (1e-6 : ℚ)
  let singleFiring := singleFiringUs * (1e-6 : ℚ)
  let offset := offsetUs * (1e-6 : ℚ)
  (List.range rows).map fun x =>
    (List.range cols).map fun y =>
      fullFiring * block x y + singleFiring * point x y + offset

/-- `Calibration.BuildTimingsFor`: per-model selection of dimensions,
duration constants, bias and index functions. -/
def Calibration.BuildTimingsFor (model : Model) : List (List ℚ) :=
  match model with
  | .VLP16 | .VLP16HiRes =>
      Calibration.BuildTimings 12 32 VLP16_FIRING_TOFFSET VLP16_DSR_TOFFSET 0
        block16 point16
  | .VLP32C =>
      Calibration.BuildTimings 12 32 VLP16_FIRING_TOFFSET VLP16_DSR_TOFFSET 0
        block1 point2
  | .HDL32E =>
      Calibration.BuildTimings 12 32 HDL32E_FIRING_TOFFSET HDL32E_DSR_TOFFSET 0
        block1 point2
  | .VLS128 =>
      Calibration.BuildTimings 3 17 VLS128_FIRING_TOFFSET VLS128_DSR_TOFFSET
        (-8.7) block1 point1
  | _ => []

/-- The `Calibration` constructor (the parts derived from the model alone):
timing table, the 36000-entry sine/cosine rotation lookup filled by the
`for` loop, and the VLS128 azimuth cache. -/
noncomputable def Calibration.construct (model : Model) : Calibration :=
  { model := model
    timingOffsets := Calibration.BuildTimingsFor model
    cosRotTable :=
      (List.range ROTATION_MAX_UNITS).map fun (i : ℕ) =>
        Real.cos (deg2rad (ROTATION_RESOLUTION * (i : ℝ)))
    sinRotTable :=
      (List.range ROTATION_MAX_UNITS).map fun (i : ℕ) =>
        Real.sin (deg2rad (ROTATION_RESOLUTION * (i : ℝ)))
    vls128LaserAzimuthCache :=
      (List.range 16).map fun i =>
        ((2.665 : ℚ) / 53.3) * ((i : ℚ) + (i : ℚ) / 8) }

/-! ## Claim theorems -/

/-- **C1.** The claim (and the source's own doc comment) say
`GpsTimestampToTimestamp(g, t)` returns the epoch seconds of `t` plus
`g × 1e-6` (microseconds to seconds).  The source computes
`+t / 1000 + g / 1e-6`, i.e. it multiplies the microsecond count by `10^6`.
Evaluating the code at the failing input `g = 3 600 000 000` (one hour of
microseconds) with `t` at the epoch: the code yields `3.6 × 10^15`, the
claimed conversion yields `3600`. -/
theorem C1_gpsTimestamp_scaling_bug :
    RawPacket.GpsTimestampToTimestamp 3600000000 0 = 3600000000000000 ∧
    gpsTimestampToTimestampIntended 3600000000 0 = 3600 ∧
    RawPacket.GpsTimestampToTimestamp 3600000000 0 ≠
      gpsTimestampToTimestampIntended 3600000000 0 := by
  refine ⟨?_, ?_, ?_⟩ <;>
    norm_num [RawPacket.GpsTimestampToTimestamp, gpsTimestampToTimestampIntended]

/-- **C2.** Constructing `RawPacket(b)` throws the length-validation error
iff `b.length ≠ 1206`; at length exactly 1206 construction succeeds and the
packet exposes exactly 12 blocks. -/
theorem C2_rawPacket_length_validation (data : List ℕ) :
    ((RawPacket.construct data).isOk ↔ data.length = 1206) ∧
    (((RawPacket.construct data).toOption.map fun p => p.blocks.length) =
      if data.length = 1206 then some 12 else none) ∧
    (data.length ≠ 1206 →
      RawPacket.construct data =
        .error ("data has invalid length " ++ toString data.length ++
          ", expected 1206")) := by
  by_cases h : data.length = 1206 <;>
    simp [RawPacket.construct, h, Except.isOk, Except.toBool, Except.toOption,
      BLOCKS_PER_PACKET]

/-- Witness for C2 at the concrete input `[]` (length 0 ≠ 1206). -/
theorem C2_rawPacket_length_validation_witness :
    (([] : List ℕ).length ≠ 1206) ∧
    RawPacket.construct ([] : List ℕ) =
      .error ("data has invalid length " ++ toString (([] : List ℕ)).length ++
        ", expected 1206") :=
  ⟨by decide, (C2_rawPacket_length_validation []).2.2 (by decide)⟩

/-- **C6.** `RawPacket.InferModel` is a pure function of the byte at offset
1205: each unambiguous documented factory-id byte maps to its model, the
ambiguous codes (`VLP32AB`, `Velarray`) and every byte outside the known set
map to `undefined` (here `none`). -/
theorem C6_inferModel_factory_byte (p : List ℕ) :
    (∀ q : List ℕ, p.getD 1205 256 = q.getD 1205 256 →
      RawPacket.InferModel p = RawPacket.InferModel q) ∧
    (p.getD 1205 256 = FactoryId.HDL32E →
      RawPacket.InferModel p = some Model.HDL32E) ∧
    (p.getD 1205 256 = FactoryId.VLP16 →
      RawPacket.InferModel p = some Model.VLP16) ∧
    (p.getD 1205 256 = FactoryId.VLP32AB → RawPacket.InferModel p = none) ∧
    (p.getD 1205 256 = FactoryId.VLP16HiRes →
      RawPacket.InferModel p = some Model.VLP16HiRes) ∧
    (p.getD 1205 256 = FactoryId.VLP32C →
      RawPacket.InferModel p = some Model.VLP32C) ∧
    (p.getD 1205 256 = FactoryId.Velarray → RawPacket.InferModel p = none) ∧
    (p.getD 1205 256 = FactoryId.HDL64 →
      RawPacket.InferModel p = some Model.HDL64E) ∧
    (p.getD 1205 256 = FactoryId.VLS128Old →
      RawPacket.InferModel p = some Model.VLS128) ∧
    (p.getD 1205 256 = FactoryId.VLS128 →
      RawPacket.InferModel p = some Model.VLS128) ∧
    (p.getD 1205 256 ≠ FactoryId.HDL32E → p.getD 1205 256 ≠ FactoryId.VLP16 →
      p.getD 1205 256 ≠ FactoryId.VLP32AB →
      p.getD 1205 256 ≠ FactoryId.VLP16HiRes →
      p.getD 1205 256 ≠ FactoryId.VLP32C → p.getD 1205 256 ≠ FactoryId.Velarray →
      p.getD 1205 256 ≠ FactoryId.HDL64 → p.getD 1205 256 ≠ FactoryId.VLS128Old →
      p.getD 1205 256 ≠ FactoryId.VLS128 → RawPacket.InferModel p = none) := by
  refine ⟨fun q h => ?_, fun h => ?_, fun h => ?_, fun h => ?_, fun h => ?_,
    fun h => ?_, fun h => ?_, fun h => ?_, fun h => ?_, fun h => ?_,
    fun h1 h2 h3 h4 h5 h6 h7 h8 h9 => ?_⟩
  · simp only [RawPacket.InferModel]
    rw [h]
  all_goals {
    first
    | · simp only [RawPacket.InferModel]
        rw [h]
        decide
    | · simp only [RawPacket.InferModel]
        rw [if_neg h1, if_neg h2, if_neg h3, if_neg h4, if_neg h5, if_neg h6,
          if_neg h7, if_neg h8, if_neg h9]
  }

/-- Witness for C6 at the concrete input `[]` (out-of-range read, `default`
branch). -/
theorem C6_inferModel_factory_byte_witness :
    RawPacket.InferModel ([] : List ℕ) = RawPacket.InferModel ([] : List ℕ) ∧
    RawPacket.InferModel ([] : List ℕ) = none :=
  ⟨(C6_inferModel_factory_byte []).1 [] rfl,
   (C6_inferModel_factory_byte []).2.2.2.2.2.2.2.2.2.2 (by decide) (by decide)
     (by decide) (by decide) (by decide) (by decide) (by decide) (by decide)
     (by decide)⟩

theorem err_bind {α β : Type} (e : String) (f : α → Except String β) :
    (Except.error e : Except String α) >>= f = Except.error e := rfl

/-- **C3.** `addPoint` then `point` at the index the record was written
returns exactly the written values, all eight fields (float32 fields as bit
patterns, `ring`/`azimuth` in uint16 range, `deltaNs` in uint32 range). -/
theorem C3_addPoint_point_roundtrip (c : PointCloud)
    (x y z distance intensity ring azimuth deltaNs : ℕ)
    (hcap : c.width * POINT_STEP + POINT_STEP ≤ c.buffer.length)
    (hx : x < 4294967296) (hy : y < 4294967296) (hz : z < 4294967296)
    (hdist : distance < 4294967296) (hint : intensity < 4294967296)
    (hring : ring < 65536) (haz : azimuth < 65536)
    (hdn : deltaNs < 4294967296) :
    Except.bind (c.addPoint x y z distance intensity ring azimuth deltaNs)
      (fun c2 => c2.point c.width) =
      .ok { x := x, y := y, z := z, distance := distance,
            intensity := intensity, ring := ring, azimuth := azimuth,
            deltaNs := deltaNs } := by
  have hPS : POINT_STEP = 28 := rfl
  have hoffeq : c.width * POINT_STEP = c.width * 28 := by rw [hPS]
  have hrec := length_pointRecord x y z distance intensity ring azimuth deltaNs
  rw [addPoint_eq_ok c x y z distance intensity ring azimuth deltaNs hcap]
  show PointCloud.point _ c.width = _
  have hlen : (addPointResult c x y z distance intensity ring azimuth
      deltaNs).buffer.length = c.buffer.length := by
    simp only [addPointResult]
    exact length_writeList _ _ _ (by omega)
  simp only [PointCloud.point]
  rw [if_pos (by rw [hlen]; omega)]
  simp only [addPointResult]
  rw [readU32LE_writeList c.buffer _ 0 _ (by omega) (by omega),
    readU32LE_writeList c.buffer _ 4 _ (by omega) (by omega),
    readU32LE_writeList c.buffer _ 8 _ (by omega) (by omega),
    readU32LE_writeList c.buffer _ 12 _ (by omega) (by omega),
    readU32LE_writeList c.buffer _ 16 _ (by omega) (by omega),
    readU16LE_writeList c.buffer _ 20 _ (by omega) (by omega),
    readU16LE_writeList c.buffer _ 22 _ (by omega) (by omega),
    readU32LE_writeList c.buffer _ 24 _ (by omega) (by omega)]
  have f1 : readU32LE (pointRecord x y z distance intensity ring azimuth
      deltaNs) 0 = x % 256 + 256 * (x / 256 % 256) + 65536 * (x / 65536 % 256) +
        16777216 * (x / 16777216 % 256) := rfl
  have f2 : readU32LE (pointRecord x y z distance intensity ring azimuth
      deltaNs) 4 = y % 256 + 256 * (y / 256 % 256) + 65536 * (y / 65536 % 256) +
        16777216 * (y / 16777216 % 256) := rfl
  have f3 : readU32LE (pointRecord x y z distance intensity ring azimuth
      deltaNs) 8 = z % 256 + 256 * (z / 256 % 256) + 65536 * (z / 65536 % 256) +
        16777216 * (z / 16777216 % 256) := rfl
  have f4 : readU32LE (pointRecord x y z distance intensity ring azimuth
      deltaNs) 12 = distance % 256 + 256 * (distance / 256 % 256) +
        65536 * (distance / 65536 % 256) +
        16777216 * (distance / 16777216 % 256) := rfl
  have f5 : readU32LE (pointRecord x y z distance intensity ring azimuth
      deltaNs) 16 = intensity % 256 + 256 * (intensity / 256 % 256) +
        65536 * (intensity / 65536 % 256) +
        16777216 * (intensity / 16777216 % 256) := rfl
  have f6 : readU16LE (pointRecord x y z distance intensity ring azimuth
      deltaNs) 20 = ring % 256 + 256 * (ring / 256 % 256) := rfl
  have f7 : readU16LE (pointRecord x y z distance intensity ring azimuth
      deltaNs) 22 = azimuth % 256 + 256 * (azimuth / 256 % 256) := rfl
  have f8 : readU32LE (pointRecord x y z distance intensity ring azimuth
      deltaNs) 24 = deltaNs % 256 + 256 * (deltaNs / 256 % 256) +
        65536 * (deltaNs / 65536 % 256) +
        16777216 * (deltaNs / 16777216 % 256) := rfl
  rw [f1, f2, f3, f4, f5, f6, f7, f8]
  simp only [Except.ok.injEq, Point.mk.injEq]
  refine ⟨?_, ?_, ?_, ?_, ?_, ?_, ?_, ?_⟩ <;> omega

/-- Witness for C3 at a freshly constructed one-point cloud. -/
theorem C3_addPoint_point_roundtrip_witness :
    (PointCloud.construct 0 1).width * POINT_STEP + POINT_STEP ≤
      (PointCloud.construct 0 1).buffer.length ∧
    Except.bind ((PointCloud.construct 0 1).addPoint 1 2 3 4 5 6 7 8)
      (fun c2 => c2.point (PointCloud.construct 0 1).width) =
      .ok { x := 1, y := 2, z := 3, distance := 4, intensity := 5, ring := 6,
            azimuth := 7, deltaNs := 8 } :=
  ⟨by decide,
   C3_addPoint_point_roundtrip (PointCloud.construct 0 1) 1 2 3 4 5 6 7 8
     (by decide) (by decide) (by decide) (by decide) (by decide) (by decide)
     (by decide) (by decide) (by decide)⟩

/-- Per-byte little-endian layout of the 28-byte record image, field by
field: byte `k` of a field with value `v` is `v / 256^k % 256`. -/
theorem pointRecord_bytes (x y z distance intensity ring azimuth deltaNs : ℕ) :
    (∀ k, k < 4 → (pointRecord x y z distance intensity ring azimuth
      deltaNs).getD (0 + k) 0 = x / 256 ^ k % 256) ∧
    (∀ k, k < 4 → (pointRecord x y z distance intensity ring azimuth
      deltaNs).getD (4 + k) 0 = y / 256 ^ k % 256) ∧
    (∀ k, k < 4 → (pointRecord x y z distance intensity ring azimuth
      deltaNs).getD (8 + k) 0 = z / 256 ^ k % 256) ∧
    (∀ k, k < 4 → (pointRecord x y z distance intensity ring azimuth
      deltaNs).getD (12 + k) 0 = distance / 256 ^ k % 256) ∧
    (∀ k, k < 4 → (pointRecord x y z distance intensity ring azimuth
      deltaNs).getD (16 + k) 0 = intensity / 256 ^ k % 256) ∧
    (∀ k, k < 2 → (pointRecord x y z distance intensity ring azimuth
      deltaNs).getD (20 + k) 0 = ring / 256 ^ k % 256) ∧
    (∀ k, k < 2 → (pointRecord x y z distance intensity ring azimuth
      deltaNs).getD (22 + k) 0 = azimuth / 256 ^ k % 256) ∧
    (∀ k, k < 4 → (pointRecord x y z distance intensity ring azimuth
      deltaNs).getD (24 + k) 0 = deltaNs / 256 ^ k % 256) := by
  refine ⟨fun k hk => ?_, fun k hk => ?_, fun k hk => ?_, fun k hk => ?_,
    fun k hk => ?_, fun k hk => ?_, fun k hk => ?_, fun k hk => ?_⟩ <;>
    interval_cases k
  · show x % 256 = x / 256 ^ 0 % 256; norm_num
  · show x / 256 % 256 = x / 256 ^ 1 % 256; norm_num
  · show x / 65536 % 256 = x / 256 ^ 2 % 256; norm_num
  · show x / 16777216 % 256 = x / 256 ^ 3 % 256; norm_num
  · show y % 256 = y / 256 ^ 0 % 256; norm_num
  · show y / 256 % 256 = y / 256 ^ 1 % 256; norm_num
  · show y / 65536 % 256 = y / 256 ^ 2 % 256; norm_num
  · show y / 16777216 % 256 = y / 256 ^ 3 % 256; norm_num
  · show z % 256 = z / 256 ^ 0 % 256; norm_num
  · show z / 256 % 256 = z / 256 ^ 1 % 256; norm_num
  · show z / 65536 % 256 = z / 256 ^ 2 % 256; norm_num
  · show z / 16777216 % 256 = z / 256 ^ 3 % 256; norm_num
  · show distance % 256 = distance / 256 ^ 0 % 256; norm_num
  · show distance / 256 % 256 = distance / 256 ^ 1 % 256; norm_num
  · show distance / 65536 % 256 = distance / 256 ^ 2 % 256; norm_num
  · show distance / 16777216 % 256 = distance / 256 ^ 3 % 256; norm_num
  · show intensity % 256 = intensity / 256 ^ 0 % 256; norm_num
  · show intensity / 256 % 256 = intensity / 256 ^ 1 % 256; norm_num
  · show intensity / 65536 % 256 = intensity / 256 ^ 2 % 256; norm_num
  · show intensity / 16777216 % 256 = intensity / 256 ^ 3 % 256; norm_num
  · show ring % 256 = ring / 256 ^ 0 % 256; norm_num
  · show ring / 256 % 256 = ring / 256 ^ 1 % 256; norm_num
  · show azimuth % 256 = azimuth / 256 ^ 0 % 256; norm_num
  · show azimuth / 256 % 256 = azimuth / 256 ^ 1 % 256; norm_num
  · show deltaNs % 256 = deltaNs / 256 ^ 0 % 256; norm_num
  · show deltaNs / 256 % 256 = deltaNs / 256 ^ 1 % 256; norm_num
  · show deltaNs / 65536 % 256 = deltaNs / 256 ^ 2 % 256; norm_num
  · show deltaNs / 16777216 % 256 = deltaNs / 256 ^ 3 % 256; norm_num

/-- **C7.** A fresh `PointCloud` has a 28-byte stride, is little-endian,
and declares the eight fields at offsets 0/4/8/12/16 (float32), 20/22
(uint16) and 24 (uint32); and `addPoint` writes each field little-endian at
exactly those offsets within the record (byte `k` of field value `v`,
stored at record offset `fieldOffset + k`, is `v / 256^k % 256`). -/
theorem C7_record_layout :
    (∀ (stamp : ℚ) (maxPoints : ℕ),
      (PointCloud.construct stamp maxPoints).point_step = 28 ∧
      (PointCloud.construct stamp maxPoints).is_bigendian = false ∧
      (PointCloud.construct stamp maxPoints).fields =
        [⟨"x", 0, PointFieldDataType.FLOAT32, 1⟩,
         ⟨"y", 4, PointFieldDataType.FLOAT32, 1⟩,
         ⟨"z", 8, PointFieldDataType.FLOAT32, 1⟩,
         ⟨"distance", 12, PointFieldDataType.FLOAT32, 1⟩,
         ⟨"intensity", 16, PointFieldDataType.FLOAT32, 1⟩,
         ⟨"ring", 20, PointFieldDataType.UINT16, 1⟩,
         ⟨"azimuth", 22, PointFieldDataType.UINT16, 1⟩,
         ⟨"delta_ns", 24, PointFieldDataType.UINT32, 1⟩]) ∧
    (∀ (c : PointCloud) (x y z distance intensity ring azimuth deltaNs : ℕ),
      c.width * POINT_STEP + POINT_STEP ≤ c.buffer.length →
      c.addPoint x y z distance intensity ring azimuth deltaNs =
        .ok (addPointResult c x y z distance intensity ring azimuth deltaNs) ∧
      (∀ k, k < 4 → (addPointResult c x y z distance intensity ring azimuth
        deltaNs).buffer.getD (c.width * POINT_STEP + (0 + k)) 0 =
          x / 256 ^ k % 256) ∧
      (∀ k, k < 4 → (addPointResult c x y z distance intensity ring azimuth
        deltaNs).buffer.getD (c.width * POINT_STEP + (4 + k)) 0 =
          y / 256 ^ k % 256) ∧
      (∀ k, k < 4 → (addPointResult c x y z distance intensity ring azimuth
        deltaNs).buffer.getD (c.width * POINT_STEP + (8 + k)) 0 =
          z / 256 ^ k % 256) ∧
      (∀ k, k < 4 → (addPointResult c x y z distance intensity ring azimuth
        deltaNs).buffer.getD (c.width * POINT_STEP + (12 + k)) 0 =
          distance / 256 ^ k % 256) ∧
      (∀ k, k < 4 → (addPointResult c x y z distance intensity ring azimuth
        deltaNs).buffer.getD (c.width * POINT_STEP + (16 + k)) 0 =
          intensity / 256 ^ k % 256) ∧
      (∀ k, k < 2 → (addPointResult c x y z distance intensity ring azimuth
        deltaNs).buffer.getD (c.width * POINT_STEP + (20 + k)) 0 =
          ring / 256 ^ k % 256) ∧
      (∀ k, k < 2 → (addPointResult c x y z distance intensity ring azimuth
        deltaNs).buffer.getD (c.width * POINT_STEP + (22 + k)) 0 =
          azimuth / 256 ^ k % 256) ∧
      (∀ k, k < 4 → (addPointResult c x y z distance intensity ring azimuth
        deltaNs).buffer.getD (c.width * POINT_STEP + (24 + k)) 0 =
          deltaNs / 256 ^ k % 256)) := by
  have hPS : POINT_STEP = 28 := rfl
  refine ⟨fun stamp maxPoints => ⟨rfl, rfl, rfl⟩,
    fun c x y z distance intensity ring azimuth deltaNs hcap => ?_⟩
  have hoffeq : c.width * POINT_STEP = c.width * 28 := by rw [hPS]
  have hrec := length_pointRecord x y z distance intensity ring azimuth deltaNs
  have hbytes := pointRecord_bytes x y z distance intensity ring azimuth deltaNs
  refine ⟨addPoint_eq_ok c x y z distance intensity ring azimuth deltaNs hcap,
    fun k hk => ?_, fun k hk => ?_, fun k hk => ?_, fun k hk => ?_,
    fun k hk => ?_, fun k hk => ?_, fun k hk => ?_, fun k hk => ?_⟩ <;>
    simp only [addPointResult] <;>
    rw [getD_writeList_at _ _ _ _ _ (by omega) (by omega)]
  · exact hbytes.1 k hk
  · exact hbytes.2.1 k hk
  · exact hbytes.2.2.1 k hk
  · exact hbytes.2.2.2.1 k hk
  · exact hbytes.2.2.2.2.1 k hk
  · exact hbytes.2.2.2.2.2.1 k hk
  · exact hbytes.2.2.2.2.2.2.1 k hk
  · exact hbytes.2.2.2.2.2.2.2 k hk

/-- Witness for C7: the layout facts at a fresh cloud, and one byte of a
written record. -/
theorem C7_record_layout_witness :
    (PointCloud.construct 0 3).point_step = 28 ∧
    (PointCloud.construct 0 3).is_bigendian = false ∧
    ((PointCloud.construct 0 3).width * POINT_STEP + POINT_STEP ≤
      (PointCloud.construct 0 3).buffer.length) ∧
    (addPointResult (PointCloud.construct 0 3) 258 0 0 0 0 0 0 0).buffer.getD
      ((PointCloud.construct 0 3).width * POINT_STEP + (0 + 1)) 0 =
      258 / 256 ^ 1 % 256 := by
  have h := C7_record_layout
  exact ⟨(h.1 0 3).1, (h.1 0 3).2.1, by decide,
    (h.2 (PointCloud.construct 0 3) 258 0 0 0 0 0 0 0 (by decide)).2.1 1
      (by decide)⟩

/-- The state invariant maintained by the `PointCloud` operations:
`row_step` tracks `width × 28`, the cursor never passes the capacity, and
the backing buffer keeps its construction size. -/
def WellFormed (c : PointCloud) : Prop :=
  c.row_step = c.width * POINT_STEP ∧ c.width ≤ c.maxPoints ∧
    c.buffer.length = c.maxPoints * POINT_STEP

/-- **C8.** Construction establishes the invariant; every `addPoint` made
while `width < maxPoints` succeeds, preserves it, advances the cursor by
one, and leaves all previously written bytes (`width × 28`-byte prefix)
unchanged; `trim` preserves the invariant and touches no bytes.  Chained
along any interleaving of such operations this gives `row_step = width × 28`
and `width ≤ maxPoints` after each step. -/
theorem C8_append_only_invariants :
    (∀ (stamp : ℚ) (maxPoints : ℕ),
      WellFormed (PointCloud.construct stamp maxPoints)) ∧
    (∀ (c : PointCloud) (x y z distance intensity ring azimuth deltaNs : ℕ),
      WellFormed c → c.width < c.maxPoints →
      c.addPoint x y z distance intensity ring azimuth deltaNs =
        .ok (addPointResult c x y z distance intensity ring azimuth deltaNs) ∧
      WellFormed (addPointResult c x y z distance intensity ring azimuth
        deltaNs) ∧
      (addPointResult c x y z distance intensity ring azimuth
        deltaNs).width = c.width + 1 ∧
      (addPointResult c x y z distance intensity ring azimuth
        deltaNs).buffer.take (c.width * POINT_STEP) =
        c.buffer.take (c.width * POINT_STEP)) ∧
    (∀ c : PointCloud, WellFormed c →
      WellFormed (c.trim) ∧ (c.trim).width = c.width ∧
      (c.trim).row_step = c.row_step ∧ (c.trim).buffer = c.buffer) := by
  have hPS : POINT_STEP = 28 := rfl
  refine ⟨fun stamp maxPoints => ?_,
    fun c x y z distance intensity ring azimuth deltaNs hwf hlt => ?_,
    fun c hwf => ⟨hwf, rfl, rfl, rfl⟩⟩
  · refine ⟨rfl, Nat.zero_le _, ?_⟩
    simp [PointCloud.construct]
  · obtain ⟨h1, h2, h3⟩ := hwf
    have hoffeq : c.width * POINT_STEP = c.width * 28 := by rw [hPS]
    have hmp : c.maxPoints * POINT_STEP = c.maxPoints * 28 := by rw [hPS]
    have hcap : c.width * POINT_STEP + POINT_STEP ≤ c.buffer.length := by omega
    have hrec := length_pointRecord x y z distance intensity ring azimuth deltaNs
    refine ⟨addPoint_eq_ok c x y z distance intensity ring azimuth deltaNs hcap,
      ⟨rfl, by simp only [addPointResult]; omega, ?_⟩, rfl, ?_⟩
    · simp only [addPointResult]
      rw [length_writeList _ _ _ (by omega)]
      exact h3
    · simp only [addPointResult]
      exact take_writeList _ _ _ _ (le_refl _) (by omega)

/-- Witness for C8: the invariant holds at a fresh cloud and is preserved
through one in-capacity `addPoint`. -/
theorem C8_append_only_invariants_witness :
    WellFormed (PointCloud.construct 0 1) ∧
    (PointCloud.construct 0 1).width < (PointCloud.construct 0 1).maxPoints ∧
    (PointCloud.construct 0 1).addPoint 1 2 3 4 5 6 7 8 =
      .ok (addPointResult (PointCloud.construct 0 1) 1 2 3 4 5 6 7 8) ∧
    WellFormed (addPointResult (PointCloud.construct 0 1) 1 2 3 4 5 6 7 8) := by
  have h1 := C8_append_only_invariants.1 0 1
  have hlt : (PointCloud.construct 0 1).width <
      (PointCloud.construct 0 1).maxPoints := by decide
  have h2 := C8_append_only_invariants.2.1 (PointCloud.construct 0 1)
    1 2 3 4 5 6 7 8 h1 hlt
  exact ⟨h1, hlt, h2.1, h2.2.1⟩

/-- **C9.** `trim` re-points `data` at the same backing buffer and byte
offset with byte length `width × 28` (no copy, no reallocation), so the
exposed bytes after `trim` are exactly the first `width × 28` bytes of the
backing buffer. -/
theorem C9_trim_spec (c : PointCloud) (h : c.row_step = c.width * POINT_STEP) :
    (c.trim).buffer = c.buffer ∧
    (c.trim).dataOff = c.dataOff ∧
    (c.trim).dataLen = c.width * POINT_STEP ∧
    (c.trim).dataBytes = (c.buffer.drop c.dataOff).take (c.width * POINT_STEP) := by
  refine ⟨rfl, rfl, ?_, ?_⟩ <;> simp [PointCloud.trim, PointCloud.dataBytes, h]

/-- Witness for C9 at a fresh two-point-capacity cloud. -/
theorem C9_trim_spec_witness :
    (PointCloud.construct 0 2).row_step =
      (PointCloud.construct 0 2).width * POINT_STEP ∧
    ((PointCloud.construct 0 2).trim).dataLen =
      (PointCloud.construct 0 2).width * POINT_STEP ∧
    ((PointCloud.construct 0 2).trim).buffer = (PointCloud.construct 0 2).buffer :=
  ⟨rfl, (C9_trim_spec (PointCloud.construct 0 2) rfl).2.2.1,
    (C9_trim_spec (PointCloud.construct 0 2) rfl).1⟩

/-- **C10.** At full capacity (`width = maxPoints`, backing buffer of
`maxPoints × 28` bytes) `addPoint` throws the `DataView` range error; the
error comes from the very first field write (second conjunct), before any
byte is stored and before the `width`/`row_step` updates at the end of the
method, so the state is untouched and no partial record exists. -/
theorem C10_addPoint_at_capacity (c : PointCloud)
    (x y z distance intensity ring azimuth deltaNs : ℕ)
    (hfull : c.width = c.maxPoints)
    (hlen : c.buffer.length = c.maxPoints * POINT_STEP) :
    c.addPoint x y z distance intensity ring azimuth deltaNs =
      .error "RangeError: Offset is outside the bounds of the DataView" ∧
    writeBytes c.buffer (c.width * POINT_STEP + 0) (u32LE x) =
      .error "RangeError: Offset is outside the bounds of the DataView" := by
  have hPS : POINT_STEP = 28 := rfl
  have hoffeq : c.width * POINT_STEP = c.width * 28 := by rw [hPS]
  have hmp : c.maxPoints * POINT_STEP = c.maxPoints * 28 := by rw [hPS]
  have h4 : (u32LE x).length = 4 := rfl
  have hw : writeBytes c.buffer (c.width * POINT_STEP + 0) (u32LE x) =
      .error "RangeError: Offset is outside the bounds of the DataView" := by
    apply writeBytes_err
    omega
  refine ⟨?_, hw⟩
  simp only [PointCloud.addPoint, hw, err_bind]

/-- Witness for C10 at a zero-capacity cloud. -/
theorem C10_addPoint_at_capacity_witness :
    (PointCloud.construct 0 0).width = (PointCloud.construct 0 0).maxPoints ∧
    (PointCloud.construct 0 0).buffer.length =
      (PointCloud.construct 0 0).maxPoints * POINT_STEP ∧
    (PointCloud.construct 0 0).addPoint 1 2 3 4 5 6 7 8 =
      .error "RangeError: Offset is outside the bounds of the DataView" :=
  ⟨rfl, by decide,
    (C10_addPoint_at_capacity (PointCloud.construct 0 0) 1 2 3 4 5 6 7 8 rfl
      (by decide)).1⟩

/-- **C4.** In every constructed `Calibration`, both rotation tables have
exactly 36000 entries and entry `i` is the cosine (resp. sine) of
`i × 0.01` degrees expressed in radians. -/
theorem C4_rotation_tables (m : Model) :
    (Calibration.construct m).cosRotTable.length = 36000 ∧
    (Calibration.construct m).sinRotTable.length = 36000 ∧
    (∀ i, i < 36000 →
      (Calibration.construct m).cosRotTable.getD i 0 =
        Real.cos ((i : ℝ) * 0.01 * (Real.pi / 180)) ∧
      (Calibration.construct m).sinRotTable.getD i 0 =
        Real.sin ((i : ℝ) * 0.01 * (Real.pi / 180))) := by
  refine ⟨?_, ?_, fun i hi => ⟨?_, ?_⟩⟩
  · simp [Calibration.construct, ROTATION_MAX_UNITS]
  · simp [Calibration.construct, ROTATION_MAX_UNITS]
  · simp only [Calibration.construct]
    rw [getD_map_range _ _ _ _ (show i < ROTATION_MAX_UNITS from hi)]
    congr 1
    simp only [deg2rad, ROTATION_RESOLUTION]
    ring
  · simp only [Calibration.construct]
    rw [getD_map_range _ _ _ _ (show i < ROTATION_MAX_UNITS from hi)]
    congr 1
    simp only [deg2rad, ROTATION_RESOLUTION]
    ring

/-- Witness for C4 at `i = 17999` of the HDL32E calibration. -/
theorem C4_rotation_tables_witness :
    (17999 < 36000) ∧
    (Calibration.construct Model.HDL32E).cosRotTable.getD 17999 0 =
      Real.cos ((17999 : ℝ) * 0.01 * (Real.pi / 180)) :=
  ⟨by norm_num,
    ((C4_rotation_tables Model.HDL32E).2.2 17999 (by norm_num)).1⟩

/-- The timing-offset entry as the spec words it, model by model: the
full-firing duration times the model's block-index function plus the
single-firing duration times its channel-index function plus the model
bias, each documented microsecond constant divided by `10^6`. -/
def timingOffsetSpec (m : Model) (block channel : ℕ) : ℚ :=
  match m with
  | .VLP16 | .VLP16HiRes =>
      55.296 / 1000000 * (2 * block + (channel : ℚ) / 16) +
        2.304 / 1000000 * ((channel % 16 : ℕ) : ℚ)
  | .VLP32C =>
      55.296 / 1000000 * block + 2.304 / 1000000 * ((channel : ℚ) / 2)
  | .HDL32E =>
      46.08 / 1000000 * block + 1.152 / 1000000 * ((channel : ℚ) / 2)
  | .VLS128 =>
      53.5 / 1000000 * block + 2.665 / 1000000 * channel + (-8.7) / 1000000
  | _ => 0

/-- Rows of the per-model timing table (blocks-within-packet index range). -/
def timingRows (m : Model) : ℕ :=
  match m with
  | .VLP16 | .VLP16HiRes | .VLP32C | .HDL32E => 12
  | .VLS128 => 3
  | _ => 0

/-- Columns of the per-model timing table (channel index range). -/
def timingCols (m : Model) : ℕ :=
  match m with
  | .VLP16 | .VLP16HiRes | .VLP32C | .HDL32E => 32
  | .VLS128 => 17
  | _ => 0

/-- **C5.** For every model, the timing table is indexed by
(block-within-packet, channel) with the per-model dimensions, and every
entry equals `fullFiringDuration × blockIndexFunction(block, channel) +
singleFiringDuration × channelIndexFunction(block, channel) + modelBias`,
the documented microsecond constants converted to seconds
(`timingOffsetSpec`). -/
theorem C5_timing_offsets (m : Model) (b ch : ℕ)
    (hb : b < timingRows m) (hc : ch < timingCols m) :
    (Calibration.BuildTimingsFor m).length = timingRows m ∧
    ((Calibration.BuildTimingsFor m).getD b []).length = timingCols m ∧
    ((Calibration.BuildTimingsFor m).getD b []).getD ch 0 =
      timingOffsetSpec m b ch := by
  have main : ∀ (rows cols : ℕ) (fullUs singleUs offsetUs : ℚ)
      (block point : ℕ → ℕ → ℚ), b < rows → ch < cols →
      (Calibration.BuildTimings rows cols fullUs singleUs offsetUs block
        point).length = rows ∧
      ((Calibration.BuildTimings rows cols fullUs singleUs offsetUs block
        point).getD b []).length = cols ∧
      ((Calibration.BuildTimings rows cols fullUs singleUs offsetUs block
        point).getD b []).getD ch 0 =
        fullUs * (1e-6 : ℚ) * block b ch + singleUs * (1e-6 : ℚ) * point b ch +
          offsetUs * (1e-6 : ℚ) := by
    intro rows cols fullUs singleUs offsetUs block point hrow hcol
    refine ⟨by simp [Calibration.BuildTimings], ?_, ?_⟩
    · simp only [Calibration.BuildTimings]
      rw [getD_map_range _ _ _ _ hrow]
      simp
    · simp only [Calibration.BuildTimings]
      rw [getD_map_range _ _ _ _ hrow, getD_map_range _ _ _ _ hcol]
  cases m
  case VLP16 =>
    have h := main 12 32 VLP16_FIRING_TOFFSET VLP16_DSR_TOFFSET 0
      block16 point16 (by simpa [timingRows] using hb)
      (by simpa [timingCols] using hc)
    refine ⟨h.1, h.2.1, ?_⟩
    simp only [Calibration.BuildTimingsFor]
    rw [h.2.2]
    simp only [timingOffsetSpec, block16, point16, VLP16_FIRING_TOFFSET,
      VLP16_DSR_TOFFSET]
    norm_num
    try ring
  case VLP16HiRes =>
    have h := main 12 32 VLP16_FIRING_TOFFSET VLP16_DSR_TOFFSET 0
      block16 point16 (by simpa [timingRows] using hb)
      (by simpa [timingCols] using hc)
    refine ⟨h.1, h.2.1, ?_⟩
    simp only [Calibration.BuildTimingsFor]
    rw [h.2.2]
    simp only [timingOffsetSpec, block16, point16, VLP16_FIRING_TOFFSET,
      VLP16_DSR_TOFFSET]
    norm_num
    try ring
  case VLP32C =>
    have h := main 12 32 VLP16_FIRING_TOFFSET VLP16_DSR_TOFFSET 0
      block1 point2 (by simpa [timingRows] using hb)
      (by simpa [timingCols] using hc)
    refine ⟨h.1, h.2.1, ?_⟩
    simp only [Calibration.BuildTimingsFor]
    rw [h.2.2]
    simp only [timingOffsetSpec, block1, point2, VLP16_FIRING_TOFFSET,
      VLP16_DSR_TOFFSET]
    norm_num
    try ring
  case HDL32E =>
    have h := main 12 32 HDL32E_FIRING_TOFFSET HDL32E_DSR_TOFFSET 0
      block1 point2 (by simpa [timingRows] using hb)
      (by simpa [timingCols] using hc)
    refine ⟨h.1, h.2.1, ?_⟩
    simp only [Calibration.BuildTimingsFor]
    rw [h.2.2]
    simp only [timingOffsetSpec, block1, point2, HDL32E_FIRING_TOFFSET,
      HDL32E_DSR_TOFFSET]
    norm_num
    try ring
  case VLS128 =>
    have h := main 3 17 VLS128_FIRING_TOFFSET VLS128_DSR_TOFFSET (-8.7)
      block1 point1 (by simpa [timingRows] using hb)
      (by simpa [timingCols] using hc)
    refine ⟨h.1, h.2.1, ?_⟩
    simp only [Calibration.BuildTimingsFor]
    rw [h.2.2]
    simp only [timingOffsetSpec, block1, point1, VLS128_FIRING_TOFFSET,
      VLS128_DSR_TOFFSET]
    norm_num
    try ring
  all_goals exact absurd hb (by simp [timingRows])

/-- Witness for C5 at block 1, channel 3 of the HDL32E table. -/
theorem C5_timing_offsets_witness :
    (1 < timingRows Model.HDL32E ∧ 3 < timingCols Model.HDL32E) ∧
    ((Calibration.BuildTimingsFor Model.HDL32E).getD 1 []).getD 3 0 =
      timingOffsetSpec Model.HDL32E 1 3 :=
  ⟨⟨by decide, by decide⟩,
    (C5_timing_offsets Model.HDL32E 1 3 (by decide) (by decide)).2.2⟩

end VelodyneCloud
